import Mathlib

/-!
Verification of the cloud adapter in
`AzureSphereTenantDeviceTwinSync/src/HighLevelApp/common/cloud.c`.

The file shallowly embeds the handlers of `cloud.c` that the design document
talks about: the periodic retry scheduler (`EventTimerCallbackHandler`), the
delivery acknowledgement handler (`TelemetryCallbackHandler`), the
desired-property reconciler (`DeviceTwinCallbackHandler`), the command
dispatcher (`DeviceMethodCallbackHandler`) and the reported-state sender
(`Cloud_SendThermometerTelemetryUploadEnabledChangedEvent`).

Modelling conventions:
* The process-wide mutable globals of `cloud.c` (`latestVersion`,
  `appRestartEventPending`, `noUpdateAvailableEventPending`,
  `updateInstallingEventPending`) are gathered into an explicit `CloudState`
  record that every handler takes and returns.
* The C code tags a send with the *address* of the pending flag it belongs to
  (`&noUpdateAvailableEventPending`, ...) and the acknowledgement handler
  compares these addresses.  The three distinct addresses are modelled by the
  closed enumeration `EventTag`; a `void *` context that is `NULL` or any
  pointer other than the three flag addresses is modelled as `none`.
* The parson JSON library is modelled by the `Json` inductive together with
  the subset of its accessors that `cloud.c` uses
  (`json_value_get_object`, `json_object_get_value`,
  `json_object_dotget_value` / `_object` / `_boolean` / `_number`).
  parson's dot-path lookup splits the *name argument* at each dot and walks
  nested objects; this is reproduced by `splitOnDot` / `dotgetValueAux`.
  `json_object_dotget_boolean` returns `-1` when the value is missing or not
  a boolean, and `json_object_dotget_number` returns `0` when the value is
  missing or not a number, exactly as in parson.
* JSON numbers are modelled as natural numbers: the only number the embedded
  code reads is `$version`, which `cloud.c` immediately casts to
  `unsigned int`; the cast is modelled as reduction mod `2 ^ 32` (`UINT_MOD`),
  and `latestVersion` (an `unsigned int`) lives in `Nat` with its
  post-increment wrapping mod `2 ^ 32`.
* Calls that escape to the domain layer (the registered
  upload-enabled-changed and display-alert callbacks) are modelled by
  returning the list of invocations (with their arguments) instead of
  performing them.
* C byte buffers are `List Nat`; `strncpyBuf src n` is the first `n` bytes
  that `strncpy(dst, src, n)` writes: source bytes up to the first NUL,
  zero-padded afterwards.
-/

/-- A parsed parson `JSON_Value`. -/
inductive Json where
  | jnull : Json
  | jbool : Bool → Json
  | jnumber : Nat → Json
  | jstring : String → Json
  | jarray : List Json → Json
  | jobject : List (String × Json) → Json

/-- A parson `JSON_Object *`: the name/value pairs of an object, in order. -/
abbrev JsonObj := List (String × Json)

/-- parson `json_value_get_object`: the object of a value, `none` (NULL) if
the value is not an object. -/
def json_value_get_object : Json → Option JsonObj
  | Json.jobject kvs => some kvs
  | _ => none

/-- parson `json_value_get_object` lifted to a nullable value pointer. -/
def json_value_get_object_opt : Option Json → Option JsonObj
  | some v => json_value_get_object v
  | none => none

/-- parson `json_object_get_value` on a nullable object pointer: the first
pair whose name matches, `none` (NULL) on a NULL object or a missing name. -/
def json_object_get_value : Option JsonObj → String → Option Json
  | none, _ => none
  | some kvs, name => List.lookup name kvs

/-- Split a name at every dot, the way parson's `json_object_dotget_value`
recursively splits its name argument at the first dot. -/
def splitOnDot : List Char → List (List Char)
  | [] => [[]]
  | c :: rest =>
    if c = '.' then [] :: splitOnDot rest
    else
      match splitOnDot rest with
      | [] => [[c]]
      | p :: ps => (c :: p) :: ps

/-- The recursion of parson `json_object_dotget_value`: each component before
the last must resolve to a nested object, the last is a plain lookup. -/
def dotgetValueAux : Option JsonObj → List (List Char) → Option Json
  | _, [] => none
  | o, [n] => json_object_get_value o (String.mk n)
  | o, n :: rest =>
      dotgetValueAux (json_value_get_object_opt (json_object_get_value o (String.mk n))) rest

/-- parson `json_object_dotget_value`. -/
def json_object_dotget_value (o : Option JsonObj) (name : String) : Option Json :=
  dotgetValueAux o (splitOnDot name.data)

/-- parson `json_object_dotget_object`: dot-get a value, NULL unless it is an
object. -/
def json_object_dotget_object (o : Option JsonObj) (name : String) : Option JsonObj :=
  json_value_get_object_opt (json_object_dotget_value o name)

/-- parson `json_value_get_boolean` on a nullable value: `1`/`0` for a
boolean, `-1` for NULL or a non-boolean value. -/
def json_value_get_boolean : Option Json → Int
  | some (Json.jbool b) => if b then 1 else 0
  | _ => -1

/-- parson `json_object_dotget_boolean`. -/
def json_object_dotget_boolean (o : Option JsonObj) (name : String) : Int :=
  json_value_get_boolean (json_object_dotget_value o name)

/-- parson `json_value_get_number` on a nullable value, restricted to the
natural numbers (see the header): `0` for NULL or a non-number value. -/
def json_value_get_number : Option Json → Nat
  | some (Json.jnumber n) => n
  | _ => 0

/-- parson `json_object_dotget_number`. -/
def json_object_dotget_number (o : Option JsonObj) (name : String) : Nat :=
  json_value_get_number (json_object_dotget_value o name)

/-- Whether a JSON value is syntactically a boolean. -/
def isJsonBool : Json → Bool
  | Json.jbool _ => true
  | _ => false

/-- `UINT_MAX + 1`: the modulus of C `unsigned int` arithmetic. -/
def UINT_MOD : Nat := 2 ^ 32

/-- The process-wide mutable globals of `cloud.c`. -/
structure CloudState where
  latestVersion : Nat
  appRestartEventPending : Bool
  noUpdateAvailableEventPending : Bool
  updateInstallingEventPending : Bool
deriving DecidableEq, Repr

/-- The initializers of the globals:
`unsigned int latestVersion = 1; bool appRestartEventPending = true;
bool noUpdateAvailableEventPending = false;
bool updateInstallingEventPending = false;`. -/
def initialCloudState : CloudState :=
  { latestVersion := 1
    appRestartEventPending := true
    noUpdateAvailableEventPending := false
    updateInstallingEventPending := false }

/-- The identity of a pending flag's storage: the possible non-foreign values
of the `void *context` tag attached to a send
(`&noUpdateAvailableEventPending`, `&updateInstallingEventPending`,
`&appRestartEventPending`). -/
inductive EventTag where
  | noUpdateAvailable : EventTag
  | updateInstalling : EventTag
  | appRestart : EventTag
deriving DecidableEq, Repr

/-- `Cloud_Result` of `cloud.h`. -/
inductive Cloud_Result where
  | Cloud_Result_OK : Cloud_Result
  | Cloud_Result_NoNetwork : Cloud_Result
  | Cloud_Result_OtherFailure : Cloud_Result
deriving DecidableEq, Repr

/-- One attempted `Cloud_SendEvent(eventName, &flag)` call: the event name
and the identity of the pending flag passed as the context tag. -/
structure SendAttempt where
  eventName : String
  tag : EventTag
deriving DecidableEq, Repr

/-- `EventTimerCallbackHandler` of `cloud.c`.  `consumeOk` tells whether
`ConsumeEventLoopTimerEvent` returned `0`; `sendResult` is the result the
transport would return for the (at most one) attempted `Cloud_SendEvent`.
The handler checks `noUpdateAvailableEventPending`, then
`updateInstallingEventPending`, then `appRestartEventPending`, sends for the
first flag found set and returns; the body of its
`if (success == Cloud_Result_OK)` test is entirely commented out
(clearing is deferred to the acknowledgement callback), so no flag changes.
Returns the unchanged state and the attempted send, if any. -/
def EventTimerCallbackHandler (consumeOk : Bool) (sendResult : Cloud_Result)
    (s : CloudState) : CloudState × Option SendAttempt :=
  if consumeOk = false then
    (s, none)
  else if s.noUpdateAvailableEventPending then
    let success := sendResult
    let _ := success = Cloud_Result.Cloud_Result_OK
    (s, some { eventName := "NoUpdateAvailable", tag := EventTag.noUpdateAvailable })
  else if s.updateInstallingEventPending then
    let success := sendResult
    let _ := success = Cloud_Result.Cloud_Result_OK
    (s, some { eventName := "UpdateInstalling", tag := EventTag.updateInstalling })
  else if s.appRestartEventPending then
    let success := sendResult
    let _ := success = Cloud_Result.Cloud_Result_OK
    (s, some { eventName := "AppRestart", tag := EventTag.appRestart })
  else
    (s, none)

/-- `TelemetryCallbackHandler` of `cloud.c`: three successive `if` blocks
compare the `void *context` tag against the address of each pending flag and,
on `success`, clear the matched flag. -/
def TelemetryCallbackHandler (success : Bool) (context : Option EventTag)
    (s : CloudState) : CloudState :=
  let s1 :=
    if context = some EventTag.updateInstalling then
      if success then { s with updateInstallingEventPending := false } else s
    else s
  let s2 :=
    if context = some EventTag.noUpdateAvailable then
      if success then { s1 with noUpdateAvailableEventPending := false } else s1
    else s1
  let s3 :=
    if context = some EventTag.appRestart then
      if success then { s2 with appRestartEventPending := false } else s2
    else s2
  s3

/-- The `desiredProperties` computation of `DeviceTwinCallbackHandler`:
`json_object_dotget_object(rootObject, "desired")`, falling back to
`rootObject` itself when that is NULL. -/
def desiredOf (root : Json) : Option JsonObj :=
  match json_object_dotget_object (json_value_get_object root) "desired" with
  | none => json_value_get_object root
  | some o => some o

/-- Observable outcome of one `DeviceTwinCallbackHandler` call: the globals
afterwards, the invocations of the registered upload-enabled-changed
callback (with their boolean argument, in order), and whether control reached
the `cleanup:` label that frees the parse tree. -/
structure TwinResult where
  state : CloudState
  uploadEnabledCalls : List Bool
  freedRoot : Bool
deriving DecidableEq, Repr

/-- `DeviceTwinCallbackHandler` of `cloud.c`.  Its argument is the result of
`json_parse_string` on the inbound document: `none` models a parse failure
(NULL), and every branch ends at the `cleanup:` label. -/
def DeviceTwinCallbackHandler (rootProperties : Option Json) (s : CloudState) : TwinResult :=
  match rootProperties with
  | none => { state := s, uploadEnabledCalls := [], freedRoot := true }
  | some root =>
      let desiredProperties := desiredOf root
      let thermometerTelemetryUploadEnabledValue :=
        json_object_dotget_boolean desiredProperties "thermometerTelemetryUploadEnabled"
      if thermometerTelemetryUploadEnabledValue ≠ -1 then
        let requestedVersion :=
          json_object_dotget_number desiredProperties "$version" % UINT_MOD
        let s2 :=
          if requestedVersion > s.latestVersion then
            { s with latestVersion := requestedVersion }
          else s
        { state := s2
          uploadEnabledCalls := [thermometerTelemetryUploadEnabledValue == 1]
          freedRoot := true }
      else
        { state := s, uploadEnabledCalls := [], freedRoot := true }

/-- A sequence of reconciliation calls: fold `DeviceTwinCallbackHandler`
over a list of parsed (or unparseable) documents. -/
def reconcileSeq (docs : List (Option Json)) (s : CloudState) : CloudState :=
  docs.foldl (fun st d => (DeviceTwinCallbackHandler d st).state) s

/-- `MAX_PAYLOAD_SIZE` of `cloud.c`. -/
def MAX_PAYLOAD_SIZE : Nat := 512

/-- The first `n` bytes written by `strncpy(dst, src, n)`: bytes of `src` up
to and including its first NUL, zero padding afterwards. -/
def strncpyBuf : List Nat → Nat → List Nat
  | _, 0 => []
  | [], n + 1 => 0 :: strncpyBuf [] n
  | b :: bs, n + 1 => if b = 0 then 0 :: strncpyBuf [] n else b :: strncpyBuf bs n

/-- Observable outcome of one `DeviceMethodCallbackHandler` call: the
returned status, the response body handed back through `*response` (a fresh
heap copy of `responseString` of `*responseSize = strlen(responseString)`
bytes, modelled by value), the contents of the `nullTerminatedPayload`
working buffer up to and including the written terminator, and the
invocations of the registered display-alert callback. -/
structure MethodResult where
  status : Int
  response : String
  responseSize : Nat
  nullTerminatedPayload : List Nat
  alertCalls : List (List Nat)
deriving DecidableEq, Repr

/-- `DeviceMethodCallbackHandler` of `cloud.c`.  The payload is the byte
buffer of length `payloadSize`; the handler truncates it to
`MAX_PAYLOAD_SIZE` bytes with `strncpy`, writes a terminating NUL, and
dispatches on the method name (`strcmp("displayAlert", methodName)`). -/
def DeviceMethodCallbackHandler (methodName : String) (payload : List Nat) : MethodResult :=
  let payloadSize := payload.length
  let actualPayloadSize := if payloadSize > MAX_PAYLOAD_SIZE then MAX_PAYLOAD_SIZE else payloadSize
  let buf := strncpyBuf payload actualPayloadSize ++ [0]
  if methodName = "displayAlert" then
    let responseString := "\"Alert message displayed successfully.\""
    { status := 200
      response := responseString
      responseSize := responseString.length
      nullTerminatedPayload := buf
      alertCalls := [buf] }
  else
    let responseString := "\x7b\x7d"
    { status := -1
      response := responseString
      responseSize := responseString.length
      nullTerminatedPayload := buf
      alertCalls := [] }

/-- The reported-state document built by
`Cloud_SendThermometerTelemetryUploadEnabledChangedEvent`: the dot-set
`value` / `ac` / `av` / `ad` fields of `thermometerTelemetryUploadEnabled`. -/
structure ReportedState where
  value : Bool
  ac : Nat
  av : Nat
  ad : String
deriving DecidableEq, Repr

/-- `Cloud_SendThermometerTelemetryUploadEnabledChangedEvent` of `cloud.c`:
stamps the report with `latestVersion++` (the pre-increment value, the
increment wrapping as C `unsigned int` arithmetic does) and leaves every
other global alone.  Returns the state afterwards and the reported
document. -/
def Cloud_SendThermometerTelemetryUploadEnabledChangedEvent (uploadEnabled : Bool)
    (s : CloudState) : CloudState × ReportedState :=
  ({ s with latestVersion := (s.latestVersion + 1) % UINT_MOD },
   { value := uploadEnabled
     ac := 200
     av := s.latestVersion
     ad := "Successfully updated thermometerTelemetryUploadEnabled" })

/-- Concrete reconciliation document
`\x7b"thermometerTelemetryUploadEnabled": true, "$version": 1\x7d`
used to witness the version-gate anomaly (its version 1 is below the stored
counter of the witness state). -/
def gateWitnessRoot : Json :=
  Json.jobject [("thermometerTelemetryUploadEnabled", Json.jbool true),
                ("$version", Json.jnumber 1)]

/-- Concrete document without a `"desired"` wrapper, used to witness the
delta-shape claim. -/
def deltaWitnessRoot : Json :=
  Json.jobject [("thermometerTelemetryUploadEnabled", Json.jbool false),
                ("$version", Json.jnumber 7)]

/-- Concrete document whose recognized property key holds a non-boolean
value (a number) next to a high `$version`, used to witness that it is
ignored. -/
def nonBoolWitnessRoot : Json :=
  Json.jobject [("thermometerTelemetryUploadEnabled", Json.jnumber 7),
                ("$version", Json.jnumber 99)]

/-- A 513-byte command payload whose second byte is NUL: byte index 2 (the
value 2) lies behind the NUL, so `strncpy` does not copy it. -/
def nulPayload : List Nat := 1 :: 0 :: List.replicate 511 2

/-! ### Helper lemmas about the JSON embedding -/

/-- Splitting a name without dots yields the name alone. -/
theorem splitOnDot_eq_self (l : List Char) (h : l.all (fun c => c != '.') = true) :
    splitOnDot l = [l] := by
  induction l with
  | nil => rfl
  | cons c rest ih =>
      simp only [List.all_cons, Bool.and_eq_true, bne_iff_ne] at h
      simp only [splitOnDot, if_neg h.1, ih h.2]

/-- `json_object_dotget_value` at a dot-free name is the plain lookup. -/
theorem dotget_value_eq_get_value (o : Option JsonObj) (name : String)
    (h : name.data.all (fun c => c != '.') = true) :
    json_object_dotget_value o name = json_object_get_value o name := by
  unfold json_object_dotget_value
  rw [splitOnDot_eq_self name.data h]
  rfl

/-- Every dot-path lookup on a NULL object pointer returns NULL. -/
theorem dotgetValueAux_none (parts : List (List Char)) :
    dotgetValueAux none parts = none := by
  induction parts with
  | nil => rfl
  | cons n rest ih =>
      cases rest with
      | nil => rfl
      | cons m ms => exact ih

/-- Specific dot-free names used by `cloud.c`. -/
theorem dotget_value_desired (o : Option JsonObj) :
    json_object_dotget_value o "desired" = json_object_get_value o "desired" :=
  dotget_value_eq_get_value o "desired" (by decide)

/-- The recognized property name is dot-free as well. -/
theorem dotget_value_thermometer (o : Option JsonObj) :
    json_object_dotget_value o "thermometerTelemetryUploadEnabled" =
      json_object_get_value o "thermometerTelemetryUploadEnabled" :=
  dotget_value_eq_get_value o "thermometerTelemetryUploadEnabled" (by decide)

/-- `$version` is dot-free as well. -/
theorem dotget_value_version (o : Option JsonObj) :
    json_object_dotget_value o "$version" = json_object_get_value o "$version" :=
  dotget_value_eq_get_value o "$version" (by decide)

/-! ### Claim theorems: scheduler and acknowledgement handler -/

/-- C1: on a tick whose timer-event consumption succeeded, the scheduler
returns the pending flags unchanged and attempts at most one send, chosen by
evaluating the flags in the exact order NoUpdateAvailable, UpdateInstalling,
AppRestart and taking the first one set, tagged with the identity of that
flag's storage; and the whole outcome is independent of the result of the
attempted send, so lower-priority pending events are not examined even when
the send fails. -/
theorem scheduler_tick_sends_first_pending_only (s : CloudState) (r r2 : Cloud_Result) :
    EventTimerCallbackHandler true r s =
      (s,
        if s.noUpdateAvailableEventPending then
          some { eventName := "NoUpdateAvailable", tag := EventTag.noUpdateAvailable }
        else if s.updateInstallingEventPending then
          some { eventName := "UpdateInstalling", tag := EventTag.updateInstalling }
        else if s.appRestartEventPending then
          some { eventName := "AppRestart", tag := EventTag.appRestart }
        else none) ∧
    EventTimerCallbackHandler true r s = EventTimerCallbackHandler true r2 s := by
  obtain ⟨v, ar, nua, ui⟩ := s
  constructor
  · cases nua <;> cases ui <;> cases ar <;> rfl
  · rfl

/-- C2: the acknowledgement handler clears exactly the flag whose storage
identity the tag carries, and only on success: with `success = false` no flag
changes, with a tag matching no flag (including the NULL tag) no flag
changes, and a successful acknowledgement for one flag rewrites only that
flag to false, leaving every other field of the state untouched. -/
theorem telemetry_ack_clears_exactly_one (s : CloudState) :
    (∀ context : Option EventTag, TelemetryCallbackHandler false context s = s) ∧
    (∀ success : Bool, TelemetryCallbackHandler success none s = s) ∧
    TelemetryCallbackHandler true (some EventTag.updateInstalling) s =
      { s with updateInstallingEventPending := false } ∧
    TelemetryCallbackHandler true (some EventTag.noUpdateAvailable) s =
      { s with noUpdateAvailableEventPending := false } ∧
    TelemetryCallbackHandler true (some EventTag.appRestart) s =
      { s with appRestartEventPending := false } := by
  refine ⟨fun context => ?_, fun success => ?_, rfl, rfl, rfl⟩
  · rcases context with _ | tag
    · rfl
    · cases tag <;> rfl
  · cases success <;> rfl

/-! ### Claim theorems: desired-property reconciler -/

/-- Helper for the monotonicity claim: one reconciliation call never lowers
the stored version counter. -/
theorem reconcile_step_version_le (d : Option Json) (s : CloudState) :
    s.latestVersion ≤ (DeviceTwinCallbackHandler d s).state.latestVersion := by
  cases d with
  | none => exact Nat.le_refl _
  | some root =>
      simp only [DeviceTwinCallbackHandler]
      split
      · split
        · next hgt => exact Nat.le_of_lt hgt
        · exact Nat.le_refl _
      · exact Nat.le_refl _

/-- C4: across any sequence of reconciliation calls, on documents of any
contents (including unparseable ones), the stored desired-property version
counter never decreases. -/
theorem reconcile_seq_version_monotone (docs : List (Option Json)) (s : CloudState) :
    s.latestVersion ≤ (reconcileSeq docs s).latestVersion := by
  induction docs generalizing s with
  | nil => exact Nat.le_refl _
  | cons d ds ih =>
      exact Nat.le_trans (reconcile_step_version_le d s)
        (ih (DeviceTwinCallbackHandler d s).state)

/-- C5: on a document that cannot be parsed (`json_parse_string` returned
NULL) the reconciler invokes no domain callback and mutates no state — the
pending flags and the version counter are exactly as before — and the
`cleanup:` label that frees the parse tree is reached on that branch, as it
is on every other branch. -/
theorem reconcile_parse_failure_inert (s : CloudState) (d : Option Json) :
    DeviceTwinCallbackHandler none s =
      { state := s, uploadEnabledCalls := [], freedRoot := true } ∧
    (DeviceTwinCallbackHandler d s).freedRoot = true := by
  refine ⟨rfl, ?_⟩
  cases d with
  | none => rfl
  | some root =>
      simp only [DeviceTwinCallbackHandler]
      split <;> rfl

/-! ### Claim theorems: reported-state sender -/

/-- C9, counterexample to the claim as stated: with the version counter at
`UINT_MAX = 2 ^ 32 - 1`, `latestVersion++` wraps to `0`, so the call does not
increment the stored counter by exactly one. -/
theorem report_upload_enabled_increment_counterexample :
    ¬ ((Cloud_SendThermometerTelemetryUploadEnabledChangedEvent true
          { latestVersion := 2 ^ 32 - 1
            appRestartEventPending := true
            noUpdateAvailableEventPending := false
            updateInstallingEventPending := false }).1.latestVersion
        = (2 ^ 32 - 1) + 1) := by decide

/-- C9, amended: every call to
`Cloud_SendThermometerTelemetryUploadEnabledChangedEvent` increments the
stored desired-property version counter by one modulo `2 ^ 32` (C unsigned
post-increment, wrapping to 0 from `UINT_MAX`), stamps the reported
acknowledgement with the pre-increment value (together with `ac = 200` and
the requested boolean), and leaves the pending flags untouched — so the
version counter is mutated outside the reconciler, by the reporting path as
well. -/
theorem report_upload_enabled_increments_mod (b : Bool) (s : CloudState) :
    (Cloud_SendThermometerTelemetryUploadEnabledChangedEvent b s).1.latestVersion =
      (s.latestVersion + 1) % UINT_MOD ∧
    (Cloud_SendThermometerTelemetryUploadEnabledChangedEvent b s).2.av = s.latestVersion ∧
    (Cloud_SendThermometerTelemetryUploadEnabledChangedEvent b s).2.value = b ∧
    (Cloud_SendThermometerTelemetryUploadEnabledChangedEvent b s).2.ac = 200 ∧
    (Cloud_SendThermometerTelemetryUploadEnabledChangedEvent b s).1.appRestartEventPending =
      s.appRestartEventPending ∧
    (Cloud_SendThermometerTelemetryUploadEnabledChangedEvent b s).1.noUpdateAvailableEventPending =
      s.noUpdateAvailableEventPending ∧
    (Cloud_SendThermometerTelemetryUploadEnabledChangedEvent b s).1.updateInstallingEventPending =
      s.updateInstallingEventPending :=
  ⟨rfl, rfl, rfl, rfl, rfl, rfl, rfl⟩

/-- Dot-path lookups on a NULL object pointer return NULL. -/
theorem dotget_value_none (name : String) :
    json_object_dotget_value none name = none :=
  dotgetValueAux_none _

/-- Dot-path object lookups on a NULL object pointer return NULL. -/
theorem dotget_object_none (name : String) :
    json_object_dotget_object none name = none := by
  unfold json_object_dotget_object
  rw [dotget_value_none]
  rfl

/-- Dot-path boolean lookups on a NULL object pointer return `-1`. -/
theorem dotget_boolean_none (name : String) :
    json_object_dotget_boolean none name = -1 := by
  unfold json_object_dotget_boolean
  rw [dotget_value_none]
  rfl

/-- C3: whenever the desired section carries the recognized property key with
a (syntactically boolean) value `b`, the reconciler invokes the
upload-enabled callback exactly once with `b` unconditionally, while the
stored version counter becomes the maximum of its old value and the
document's requested version — that is, it is raised to the requested
version exactly when that is strictly greater, and is left alone (with the
callback still invoked) when the requested version is lower or equal. -/
theorem reconcile_gate_only_raises_callback_unconditional (root : Json) (s : CloudState)
    (b : Bool)
    (h : json_object_dotget_value (desiredOf root) "thermometerTelemetryUploadEnabled" =
      some (Json.jbool b)) :
    (DeviceTwinCallbackHandler (some root) s).uploadEnabledCalls = [b] ∧
    (DeviceTwinCallbackHandler (some root) s).state.latestVersion =
      max s.latestVersion (json_object_dotget_number (desiredOf root) "$version" % UINT_MOD) := by
  have hb : json_object_dotget_boolean (desiredOf root) "thermometerTelemetryUploadEnabled" =
      if b then 1 else 0 := by
    unfold json_object_dotget_boolean
    rw [h]
    rfl
  have hne : (if b then (1 : Int) else 0) ≠ -1 := by cases b <;> decide
  constructor
  · simp only [DeviceTwinCallbackHandler, hb, if_pos hne]
    cases b <;> rfl
  · simp only [DeviceTwinCallbackHandler, hb, if_pos hne]
    split
    · next hgt => exact (max_eq_right (Nat.le_of_lt hgt)).symm
    · next hle => exact (max_eq_left (Nat.le_of_not_lt hle)).symm

/-- Witness for C3 at a concrete document whose requested version 1 is below
the stored counter 5: the callback still fires with the document's boolean
and the counter stays at 5. -/
theorem reconcile_gate_only_raises_callback_unconditional_witness :
    (DeviceTwinCallbackHandler (some gateWitnessRoot)
        { initialCloudState with latestVersion := 5 }).uploadEnabledCalls = [true] ∧
    (DeviceTwinCallbackHandler (some gateWitnessRoot)
        { initialCloudState with latestVersion := 5 }).state.latestVersion = 5 := by
  have h := reconcile_gate_only_raises_callback_unconditional gateWitnessRoot
    { initialCloudState with latestVersion := 5 } true rfl
  refine ⟨h.1, ?_⟩
  rw [h.2]
  decide

/-- C8: a parsed document in which `"desired"` does not resolve to a nested
object is reconciled exactly like the same contents nested under
`"desired"`: the resulting state, callback invocations and cleanup behaviour
coincide. -/
theorem reconcile_without_desired_wrapper (root : Json) (s : CloudState)
    (h : json_object_dotget_object (json_value_get_object root) "desired" = none) :
    DeviceTwinCallbackHandler (some root) s =
      DeviceTwinCallbackHandler (some (Json.jobject [("desired", root)])) s := by
  have hwrap : json_object_dotget_value (some [("desired", root)]) "desired" = some root := by
    rw [dotget_value_desired]
    simp [json_object_get_value, List.lookup]
  cases hroot : json_value_get_object root with
  | some kvs =>
      have hdes1 : desiredOf root = some kvs := by
        unfold desiredOf
        rw [h, hroot]
      have hdes2 : desiredOf (Json.jobject [("desired", root)]) = some kvs := by
        unfold desiredOf
        show (match json_object_dotget_object (some [("desired", root)]) "desired" with
          | none => some [("desired", root)]
          | some o => some o) = some kvs
        unfold json_object_dotget_object
        rw [hwrap]
        show (match json_value_get_object root with
          | none => some [("desired", root)]
          | some o => some o) = some kvs
        rw [hroot]
      simp only [DeviceTwinCallbackHandler, hdes1, hdes2]
  | none =>
      have hdes1 : desiredOf root = none := by
        unfold desiredOf
        rw [hroot, dotget_object_none]
      have hdes2 : desiredOf (Json.jobject [("desired", root)]) = some [("desired", root)] := by
        unfold desiredOf
        show (match json_object_dotget_object (some [("desired", root)]) "desired" with
          | none => some [("desired", root)]
          | some o => some o) = some [("desired", root)]
        unfold json_object_dotget_object
        rw [hwrap]
        show (match json_value_get_object root with
          | none => some [("desired", root)]
          | some o => some o) = some [("desired", root)]
        rw [hroot]
      have hlookup : json_object_dotget_boolean (some [("desired", root)])
          "thermometerTelemetryUploadEnabled" = -1 := by
        unfold json_object_dotget_boolean
        rw [dotget_value_thermometer]
        simp [json_object_get_value, List.lookup, json_value_get_boolean]
      have hne : ¬((-1 : Int) ≠ -1) := fun hcon => hcon rfl
      simp only [DeviceTwinCallbackHandler, hdes1, hdes2, hlookup, dotget_boolean_none]
      rw [if_neg hne, if_neg hne]

/-- Witness for C8: a concrete delta-shaped document (no `"desired"`
wrapper) reconciles identically to its wrapped form. -/
theorem reconcile_without_desired_wrapper_witness :
    DeviceTwinCallbackHandler (some deltaWitnessRoot) initialCloudState =
      DeviceTwinCallbackHandler (some (Json.jobject [("desired", deltaWitnessRoot)]))
        initialCloudState :=
  reconcile_without_desired_wrapper deltaWitnessRoot initialCloudState rfl

/-- C10: if the recognized property key is present but its value is not
syntactically a JSON boolean, the reconciler does exactly what it does for an
absent key: no callback invocation and no state change (the version counter
in particular is not updated, whatever `$version` says). -/
theorem reconcile_nonboolean_value_ignored (root : Json) (s : CloudState) (v : Json)
    (h : json_object_dotget_value (desiredOf root) "thermometerTelemetryUploadEnabled" = some v)
    (hv : isJsonBool v = false) :
    DeviceTwinCallbackHandler (some root) s =
      { state := s, uploadEnabledCalls := [], freedRoot := true } := by
  have hb : json_object_dotget_boolean (desiredOf root) "thermometerTelemetryUploadEnabled" =
      -1 := by
    unfold json_object_dotget_boolean
    rw [h]
    cases v with
    | jbool b => exact absurd hv (by simp [isJsonBool])
    | jnull => rfl
    | jnumber n => rfl
    | jstring t => rfl
    | jarray xs => rfl
    | jobject kvs => rfl
  simp only [DeviceTwinCallbackHandler, hb]
  rw [if_neg (by decide)]

/-- Witness for C10 at a concrete document where the key holds the number 7
and `$version` is 99: nothing is invoked and the version counter stays 1. -/
theorem reconcile_nonboolean_value_ignored_witness :
    DeviceTwinCallbackHandler (some nonBoolWitnessRoot) initialCloudState =
      { state := initialCloudState, uploadEnabledCalls := [], freedRoot := true } :=
  reconcile_nonboolean_value_ignored nonBoolWitnessRoot initialCloudState
    (Json.jnumber 7) rfl rfl

/-! ### Claim theorems: command dispatcher -/

/-- `strncpy` writes exactly `n` bytes. -/
theorem strncpyBuf_length (src : List Nat) (n : Nat) : (strncpyBuf src n).length = n := by
  induction n generalizing src with
  | zero => cases src <;> rfl
  | succ n ih =>
      cases src with
      | nil => simp [strncpyBuf, ih]
      | cons b bs =>
          simp only [strncpyBuf]
          split <;> simp [ih]

/-- Byte `i` of the `strncpy` image: the source byte when no NUL precedes it
in the source, `0` (the copied NUL or padding) otherwise. -/
theorem strncpyBuf_getD (n i : Nat) (src : List Nat) (h : i < n) :
    (strncpyBuf src n).getD i 0 =
      if (src.take i).all (fun x => x != 0) then src.getD i 0 else 0 := by
  induction n generalizing src i with
  | zero => omega
  | succ n ih =>
      cases src with
      | nil =>
          cases i with
          | zero => rfl
          | succ i =>
              simp only [strncpyBuf, List.getD_cons_succ]
              rw [ih i [] (by omega)]
              simp
      | cons b bs =>
          simp only [strncpyBuf]
          by_cases hb : b = 0
          · rw [if_pos hb]
            subst hb
            cases i with
            | zero => simp
            | succ i =>
                simp only [List.getD_cons_succ]
                rw [ih i [] (by omega)]
                simp
          · rw [if_neg hb]
            cases i with
            | zero => simp
            | succ i =>
                simp only [List.getD_cons_succ]
                rw [ih i bs (by omega)]
                simp [hb]

/-- The dispatcher's working buffer is the `strncpy` image of the payload
truncated to `MAX_PAYLOAD_SIZE`, followed by the explicitly written
terminator. -/
theorem method_workbuf_eq (m : String) (p : List Nat) :
    (DeviceMethodCallbackHandler m p).nullTerminatedPayload =
      strncpyBuf p (min p.length MAX_PAYLOAD_SIZE) ++ [0] := by
  have hmin : (if p.length > MAX_PAYLOAD_SIZE then MAX_PAYLOAD_SIZE else p.length) =
      min p.length MAX_PAYLOAD_SIZE := by
    split <;> omega
  simp only [DeviceMethodCallbackHandler]
  rw [hmin]
  split <;> rfl

set_option maxRecDepth 100000 in
/-- C6, counterexample to the claim as stated: for the 513-byte payload
`[1, 0, 2, 2, ...]` the working buffer does not receive exactly the first
512 payload bytes — `strncpy` stops copying at the embedded NUL at index 1
and zero-fills the rest, so byte 2 of the buffer is `0`, not `2`. -/
theorem method_exact_copy_counterexample :
    ¬ ((DeviceMethodCallbackHandler "displayAlert" nulPayload).nullTerminatedPayload.take
          MAX_PAYLOAD_SIZE = nulPayload.take MAX_PAYLOAD_SIZE) := by decide

/-- C6, amended: for every method name and payload, the working buffer holds
`min(payloadSize, 512) + 1` defined bytes, is null-terminated at position
`min(payloadSize, 512)`, and its first `min(payloadSize, 512)` bytes are the
`strncpy` image of the payload: byte `i` equals payload byte `i` as long as
no NUL byte occurs among the first `i` payload bytes (in particular, a
payload longer than 512 bytes without embedded NULs is copied to exactly its
first 512 bytes), and is `0` from the first embedded NUL onwards. -/
theorem method_payload_truncation_strncpy (m : String) (p : List Nat) :
    (DeviceMethodCallbackHandler m p).nullTerminatedPayload.length =
      min p.length MAX_PAYLOAD_SIZE + 1 ∧
    (DeviceMethodCallbackHandler m p).nullTerminatedPayload.getD
      (min p.length MAX_PAYLOAD_SIZE) 0 = 0 ∧
    ∀ i, i < min p.length MAX_PAYLOAD_SIZE →
      (DeviceMethodCallbackHandler m p).nullTerminatedPayload.getD i 0 =
        if (p.take i).all (fun x => x != 0) then p.getD i 0 else 0 := by
  rw [method_workbuf_eq m p]
  refine ⟨?_, ?_, ?_⟩
  · simp [strncpyBuf_length]
  · rw [List.getD_append_right _ _ _ _ (le_of_eq (strncpyBuf_length p _))]
    simp [strncpyBuf_length]
  · intro i hi
    rw [List.getD_append _ _ _ _ (by rw [strncpyBuf_length]; exact hi)]
    exact strncpyBuf_getD _ i p hi

set_option maxRecDepth 100000 in
/-- Witness for the amended C6 at the concrete 513-byte payload with an
embedded NUL: the terminator sits at position 512 and buffer byte 2 is 0. -/
theorem method_payload_truncation_strncpy_witness :
    (DeviceMethodCallbackHandler "displayAlert" nulPayload).nullTerminatedPayload.getD 512 0 =
      0 ∧
    (DeviceMethodCallbackHandler "displayAlert" nulPayload).nullTerminatedPayload.getD 2 0 =
      0 := by
  have h := method_payload_truncation_strncpy "displayAlert" nulPayload
  have hmin : min nulPayload.length MAX_PAYLOAD_SIZE = 512 := by decide
  constructor
  · have h2 := h.2.1
    rw [hmin] at h2
    exact h2
  · rw [h.2.2 2 (by decide)]
    decide

/-- C7: a `displayAlert` dispatch invokes the display-alert callback exactly
once, handing it the truncated null-terminated working buffer, and returns
status 200 with the fixed JSON-string response body; any other method name
invokes no domain callback and returns status -1 with the empty-object
response body; in both cases the reported response size is the byte length
of the response body handed back (the freshly allocated heap copy is
modelled by value). -/
theorem method_dispatch_by_name (m : String) (p : List Nat) :
    (m = "displayAlert" →
      (DeviceMethodCallbackHandler m p).alertCalls =
        [(DeviceMethodCallbackHandler m p).nullTerminatedPayload] ∧
      (DeviceMethodCallbackHandler m p).status = 200 ∧
      (DeviceMethodCallbackHandler m p).response =
        "\"Alert message displayed successfully.\"" ∧
      (DeviceMethodCallbackHandler m p).responseSize =
        (DeviceMethodCallbackHandler m p).response.length) ∧
    (m ≠ "displayAlert" →
      (DeviceMethodCallbackHandler m p).alertCalls = [] ∧
      (DeviceMethodCallbackHandler m p).status = -1 ∧
      (DeviceMethodCallbackHandler m p).response = "\x7b\x7d" ∧
      (DeviceMethodCallbackHandler m p).responseSize =
        (DeviceMethodCallbackHandler m p).response.length) := by
  constructor
  · intro hm
    subst hm
    exact ⟨rfl, rfl, rfl, rfl⟩
  · intro hm
    simp only [DeviceMethodCallbackHandler, if_neg hm]
    refine ⟨?_, ?_, ?_, ?_⟩ <;> trivial

/-- Witness for C7 on both branches: a `displayAlert` call returns 200 and
hands the buffer to the callback; an unrecognized name returns -1 with no
callback. -/
theorem method_dispatch_by_name_witness :
    ((DeviceMethodCallbackHandler "displayAlert" [65]).status = 200 ∧
      (DeviceMethodCallbackHandler "displayAlert" [65]).alertCalls =
        [(DeviceMethodCallbackHandler "displayAlert" [65]).nullTerminatedPayload]) ∧
    ((DeviceMethodCallbackHandler "reboot" [65]).status = -1 ∧
      (DeviceMethodCallbackHandler "reboot" [65]).alertCalls = []) := by
  have h1 := (method_dispatch_by_name "displayAlert" [65]).1 rfl
  have h2 := (method_dispatch_by_name "reboot" [65]).2 (by decide)
  exact ⟨⟨h1.2.1, h1.1⟩, ⟨h2.2.1, h2.1⟩⟩
